import Mathlib

/-!
Shallow embedding of the `@cbuff/llm` wrapper (src/src/types.ts and the
unnamed implementation file): a typed client over a text-generation SDK
with a lazily populated provider cache, model-alias resolution, cost
arithmetic and a `generate` orchestration step.

Modelling conventions:
- TypeScript numbers are embedded as `ℚ` for cost arithmetic (every value
  the claims mention is exactly representable in binary floating point, so
  rational arithmetic agrees with the source on them) and as `Nat` for
  token counts and clock readings.
- Provider instances are opaque: a resolved provider is a `Nat` tag, and
  applying it to a model id (the source line `provider(modelConfig.id)`)
  yields the pair of the tag and the id.
- External effects (provider factories, the SDK call, the wall clock and
  whether `console.log` throws) are supplied by an `Env` oracle; the
  mutable client state (the provider cache, plus ghost fields counting
  factory invocations, the clock and the emitted log lines) is threaded
  explicitly as a `St` value, so every operation returns
  `Except Err α × St`.
- The source defines no error classes: each failure point in the
  TypeScript throws a runtime `TypeError` (a lookup with a non-null
  assertion coming back `undefined`) or propagates a rejection. The `Err`
  inductive names these distinct program points with the names the
  specification uses for them: the alias-miss at `config.models[modelKey]!`
  is `UnknownModelError`, the provider-key miss at
  `config.providers[providerKey]!` is `ConfigError`, a factory
  throw/rejection is `ProviderInitError`, an SDK failure is `SdkError`,
  and a throwing `console.log` is `LogError`.
-/

namespace LLMSpec

/-- USD cost rates per 1,000,000 tokens (the optional `costs` field of a
model entry in types.ts). -/
structure Costs where
  input : ℚ
  output : ℚ
deriving DecidableEq

/-- A model entry: provider key, underlying model id, optional costs
(types.ts `ModelEntry`). -/
structure ModelEntry where
  provider : String
  id : String
  costs : Option Costs
deriving DecidableEq

/-- The configuration handed to `createAI`: the set of provider keys that
have a factory, and the model-alias mapping. Factory behaviour itself
lives in the `Env` oracle. -/
structure Config where
  providers : List String
  models : List (String × ModelEntry)

/-- Association-list lookup, the embedding of `map[key]` /
`Map.prototype.get`. -/
def alookup {β : Type} (key : String) : List (String × β) → Option β
  | [] => none
  | p :: rest => if p.1 = key then some p.2 else alookup key rest

/-- Token usage as reported by the SDK (each field may be absent,
mirroring `result.usage?.inputTokens`). -/
structure Usage where
  inputTokens : Option Nat
  outputTokens : Option Nat
deriving DecidableEq

/-- The result of the underlying `generateText` call: plain text, the
structured (schema-validated) result, and optional usage. -/
structure SdkResult where
  text : String
  experimental_output : String
  usage : Option Usage
deriving DecidableEq

/-- The external world for one client: `factoryResult key n` is the
outcome of the n-th invocation of the provider factory registered under
`key` (`Except.error` models the factory throwing or rejecting); `sdk` is
the outcome of the underlying generation call; the two durations say how
far the wall clock advances during provider/model resolution and during
the SDK call; `logThrows` says whether `console.log` throws when
invoked. -/
structure Env where
  factoryResult : String → Nat → Except Unit Nat
  sdk : Except Unit SdkResult
  resolveDurationMs : Nat
  sdkDurationMs : Nat
  logThrows : Bool

/-- The data carried by one emitted log line (the source renders these
into the string
`[LLM][<logKey>] <seconds>s using <model><costSuffix>`; the rendering is
presentation-only and not modelled). -/
structure LogLine where
  logKey : String
  responseTimeMs : Nat
  model : String
  inputCostUsd : Option ℚ
  outputCostUsd : Option ℚ
  totalCostUsd : Option ℚ
deriving DecidableEq

/-- Client state: the provider cache (`providerCache` in the source) plus
ghost observations — per-key factory invocation counts, the wall clock,
and the log lines emitted so far. -/
structure St where
  cache : List (String × Nat)
  counts : String → Nat
  time : Nat
  log : List LogLine

/-- The client state at construction: `createAI` performs no runtime
validation and only allocates the empty provider cache. -/
def initSt : St :=
  { cache := [], counts := fun _ => 0, time := 0, log := [] }

/-- Failure points of the embedded operations; see the module comment for
how each maps onto a throw site in the source. -/
inductive Err where
  | UnknownModelError
  | ConfigError
  | ProviderInitError
  | SdkError
  | LogError
deriving DecidableEq

/-- Embedding of `getProvider` (types.ts lines 188-196): return the cached
instance if present; otherwise look up the factory (a missing key makes
the following call throw — `ConfigError`), invoke it (counted in the ghost
`counts` field), cache the instance on success, and propagate
`ProviderInitError` without caching on failure. -/
def getProvider (cfg : Config) (env : Env) (st : St) (key : String) :
    Except Err Nat × St :=
  match alookup key st.cache with
  | some cached => (.ok cached, st)
  | none =>
    if key ∈ cfg.providers then
      let n := st.counts key
      let st1 : St :=
        { st with counts := fun k => if k = key then st.counts k + 1 else st.counts k }
      match env.factoryResult key n with
      | .ok provider =>
        (.ok provider, { st1 with cache := (key, provider) :: st1.cache })
      | .error _ => (.error .ProviderInitError, st1)
    else (.error .ConfigError, st)

/-- Embedding of `getModel` (types.ts lines 201-205): look up the alias
(a miss throws — `UnknownModelError` — before any factory runs), resolve
the provider, and bind the model id (`provider(modelConfig.id)` is the
pair of the provider tag and the id). -/
def getModel (cfg : Config) (env : Env) (st : St) (modelKey : String) :
    Except Err (Nat × String) × St :=
  match alookup modelKey cfg.models with
  | none => (.error .UnknownModelError, st)
  | some modelConfig =>
    match getProvider cfg env st modelConfig.provider with
    | (.ok provider, st1) => (.ok (provider, modelConfig.id), st1)
    | (.error e, st1) => (.error e, st1)

/-- The three optional cost fields returned by `calculateCosts`. -/
structure CostFields where
  inputCostUsd : Option ℚ
  outputCostUsd : Option ℚ
  totalCostUsd : Option ℚ
deriving DecidableEq

/-- Embedding of `calculateCosts` (types.ts lines 211-231): all three
fields absent when the entry has no `costs`, otherwise the per-million
linear formulas. (The alias is always present when called from `generate`;
the `none` branch of the outer match is unreachable there, as the source's
non-null assertion records.) -/
def calculateCosts (cfg : Config) (modelKey : String)
    (inputTokens outputTokens : Nat) : CostFields :=
  match alookup modelKey cfg.models with
  | none => ⟨none, none, none⟩
  | some modelConfig =>
    match modelConfig.costs with
    | none => ⟨none, none, none⟩
    | some c =>
      let inputCostUsd := (inputTokens : ℚ) / 1000000 * c.input
      let outputCostUsd := (outputTokens : ℚ) / 1000000 * c.output
      ⟨some inputCostUsd, some outputCostUsd, some (inputCostUsd + outputCostUsd)⟩

/-- Parameters of `generate` (types.ts `GenerateParams`); the output
schema is opaque to this layer, so only its presence is modelled. -/
structure GenerateParams where
  model : String
  prompt : String
  system : Option String
  output : Option Unit
  logKey : Option String
deriving DecidableEq

/-- Metadata of a `generate` response (types.ts `GenerateMetadata`). -/
structure GenerateMetadata where
  responseTimeMs : Nat
  inputTokens : Nat
  outputTokens : Nat
  inputCostUsd : Option ℚ
  outputCostUsd : Option ℚ
  totalCostUsd : Option ℚ
deriving DecidableEq

/-- A `generate` response (types.ts `GenerateResponse`). -/
structure GenerateResponse where
  data : String
  metadata : GenerateMetadata
deriving DecidableEq

/-- JavaScript truthiness of the optional `logKey` string: `undefined` and
`""` are falsy, every other string is truthy. -/
def strTruthy : Option String → Bool
  | none => false
  | some s => s != ""

/-- The data of the log line `generate` emits (types.ts lines 258-265):
log key, elapsed time, model alias, and the three optional cost fields. -/
def logLineOf (cfg : Config) (params : GenerateParams)
    (responseTimeMs inputTokens outputTokens : Nat) : LogLine :=
  let costs := calculateCosts cfg params.model inputTokens outputTokens
  { logKey := params.logKey.getD ""
    responseTimeMs := responseTimeMs
    model := params.model
    inputCostUsd := costs.inputCostUsd
    outputCostUsd := costs.outputCostUsd
    totalCostUsd := costs.totalCostUsd }

/-- Embedding of `generate` (types.ts lines 236-276): resolve the model
(the clock advances by the resolution duration before the start timestamp
is read), invoke the SDK between the two timestamps, default missing usage
to 0, compute costs, emit the log line when `params.logKey` is truthy
(`console.log` is not guarded, so a throwing logger fails the call), and
return data plus metadata. -/
def generate (cfg : Config) (env : Env) (st : St) (params : GenerateParams) :
    Except Err GenerateResponse × St :=
  match getModel cfg env { st with time := st.time + env.resolveDurationMs }
      params.model with
  | (.error e, st1) => (.error e, st1)
  | (.ok _model, st1) =>
    let startTime := st1.time
    match env.sdk with
    | .error _ => (.error .SdkError, { st1 with time := st1.time + env.sdkDurationMs })
    | .ok result =>
      let st2 : St := { st1 with time := st1.time + env.sdkDurationMs }
      let endTime := st2.time
      let responseTimeMs := endTime - startTime
      let inputTokens := (result.usage.bind Usage.inputTokens).getD 0
      let outputTokens := (result.usage.bind Usage.outputTokens).getD 0
      let costs := calculateCosts cfg params.model inputTokens outputTokens
      let response : GenerateResponse :=
        { data := if params.output.isSome then result.experimental_output else result.text
          metadata :=
            { responseTimeMs := responseTimeMs
              inputTokens := inputTokens
              outputTokens := outputTokens
              inputCostUsd := costs.inputCostUsd
              outputCostUsd := costs.outputCostUsd
              totalCostUsd := costs.totalCostUsd } }
      if strTruthy params.logKey then
        if env.logThrows then (.error .LogError, st2)
        else
          (.ok response,
            { st2 with
              log := st2.log ++
                [logLineOf cfg params responseTimeMs inputTokens outputTokens] })
      else (.ok response, st2)

/-- Run a sequence of `generate` calls on one client, threading the state;
each call may see a different external world. -/
def runGenerates (cfg : Config) (st : St) : List (Env × GenerateParams) → St
  | [] => st
  | c :: rest => runGenerates cfg (generate cfg c.1 st c.2).2 rest

/-- An environment whose provider factories always succeed (never throw or
reject). -/
def factoriesOk (env : Env) : Prop :=
  ∀ k n, ∃ p, env.factoryResult k n = Except.ok p

/-- The cache/counter invariant behind the load-once guarantee for one
provider key: the factory has run at most once, and it has not run at all
while the key is still missing from the cache. -/
def cacheInv (key : String) (st : St) : Prop :=
  st.counts key ≤ 1 ∧ (alookup key st.cache = none → st.counts key = 0)

/-- A model entry without cost tracking (the README's `fast` model). -/
def entryFast : ModelEntry :=
  { provider := "openai", id := "gpt-4o-mini", costs := none }

/-- A model entry with the README's `smart` costs
`{input: 2.5, output: 10}`. -/
def entrySmart : ModelEntry :=
  { provider := "openai", id := "gpt-4o", costs := some { input := 5 / 2, output := 10 } }

/-- A concrete two-model configuration over one provider key. -/
def cfgEx : Config :=
  { providers := ["openai"]
    models := [("fast", entryFast), ("smart", entrySmart)] }

/-- A configuration whose only model references a provider key that is
absent from the provider mapping. -/
def cfgBad : Config :=
  { providers := []
    models := [("fast", entryFast)] }

/-- A concrete SDK result reporting the token counts of the spec's cost
example. -/
def resEx : SdkResult :=
  { text := "hello"
    experimental_output := "structured"
    usage := some { inputTokens := some 1000000, outputTokens := some 500000 } }

/-- A benign external world: factories always resolve to provider 0, the
SDK succeeds with `resEx`, and `console.log` works. -/
def envEx : Env :=
  { factoryResult := fun _ _ => .ok 0
    sdk := .ok resEx
    resolveDurationMs := 7
    sdkDurationMs := 42
    logThrows := false }

/-- The benign world except that `console.log` throws when invoked. -/
def envLogFail : Env :=
  { envEx with logThrows := true }

/-- A world whose factories throw on their first invocation and succeed
from the second on. -/
def envFactoryFlaky : Env :=
  { envEx with factoryResult := fun _ n => if n = 0 then .error () else .ok 5 }

/-- Concrete `generate` parameters for the cost-free model, with a
non-empty log key. -/
def paramsFast : GenerateParams :=
  { model := "fast", prompt := "x", system := none, output := none, logKey := some "job" }

/-- The same call with the empty string as log key. -/
def paramsEmptyLogKey : GenerateParams :=
  { paramsFast with logKey := some "" }

/-- The same call against an alias absent from the model mapping. -/
def paramsUnknown : GenerateParams :=
  { paramsFast with model := "unknown-alias" }

/-- A call to the costed model without a log key. -/
def paramsSmart : GenerateParams :=
  { model := "smart", prompt := "x", system := none, output := none, logKey := none }

/-- A call to the cost-free model without a log key. -/
def paramsFastNoLog : GenerateParams :=
  { model := "fast", prompt := "x", system := none, output := none, logKey := none }

/-- The response `generate cfgEx envEx initSt paramsFastNoLog` produces:
no costs configured, so all three cost fields are absent. -/
def respFast : GenerateResponse :=
  { data := "hello"
    metadata :=
      { responseTimeMs := 42
        inputTokens := 1000000
        outputTokens := 500000
        inputCostUsd := none
        outputCostUsd := none
        totalCostUsd := none } }

/-- The client state after `generate cfgEx envEx initSt paramsFastNoLog`. -/
def stAfterFast : St :=
  { cache := [("openai", 0)]
    counts := fun k => if k = "openai" then 1 else 0
    time := 49
    log := [] }

/-- The client state right after model resolution in a first call on
`cfgEx`: provider cached, factory invoked once, clock advanced by the
resolution duration. -/
def stResolved : St :=
  { cache := [("openai", 0)]
    counts := fun k => if k = "openai" then 1 else 0
    time := 7
    log := [] }

/-- `getProvider` never touches the emitted-log field. -/
theorem getProvider_log (cfg : Config) (env : Env) (st : St) (key : String) :
    (getProvider cfg env st key).2.log = st.log := by
  unfold getProvider
  split
  · rfl
  · split
    · dsimp only
      split <;> rfl
    · rfl

/-- `getModel` never touches the emitted-log field. -/
theorem getModel_log (cfg : Config) (env : Env) (st : St) (mkey : String) :
    (getModel cfg env st mkey).2.log = st.log := by
  unfold getModel
  split
  · rfl
  · rename_i mc heq0
    have h := getProvider_log cfg env st mc.provider
    rcases hgp : getProvider cfg env st mc.provider with ⟨gres, st1⟩
    rw [hgp] at h
    cases gres <;> simpa using h

/-- `getProvider` never turns the clock. -/
theorem getProvider_time (cfg : Config) (env : Env) (st : St) (key : String) :
    (getProvider cfg env st key).2.time = st.time := by
  unfold getProvider
  split
  · rfl
  · split
    · dsimp only
      split <;> rfl
    · rfl

/-- `getModel` never turns the clock. -/
theorem getModel_time (cfg : Config) (env : Env) (st : St) (mkey : String) :
    (getModel cfg env st mkey).2.time = st.time := by
  unfold getModel
  split
  · rfl
  · rename_i mc heq0
    have h := getProvider_time cfg env st mc.provider
    rcases hgp : getProvider cfg env st mc.provider with ⟨gres, st1⟩
    rw [hgp] at h
    cases gres <;> simpa using h

/-- Inversion of a successful `generate` call: the SDK call succeeded, and
the response's data, timing, token and cost fields, as well as the log
effect, are as the success branch of the source computes them. -/
theorem generate_ok_inv {cfg : Config} {env : Env} {st : St}
    {params : GenerateParams} {r : GenerateResponse} {st1 : St}
    (h : generate cfg env st params = (.ok r, st1)) :
    ∃ res, env.sdk = .ok res ∧
      r.data = (if params.output.isSome then res.experimental_output else res.text) ∧
      r.metadata.responseTimeMs = env.sdkDurationMs ∧
      r.metadata.inputTokens = (res.usage.bind Usage.inputTokens).getD 0 ∧
      r.metadata.outputTokens = (res.usage.bind Usage.outputTokens).getD 0 ∧
      r.metadata.inputCostUsd =
        (calculateCosts cfg params.model r.metadata.inputTokens
          r.metadata.outputTokens).inputCostUsd ∧
      r.metadata.outputCostUsd =
        (calculateCosts cfg params.model r.metadata.inputTokens
          r.metadata.outputTokens).outputCostUsd ∧
      r.metadata.totalCostUsd =
        (calculateCosts cfg params.model r.metadata.inputTokens
          r.metadata.outputTokens).totalCostUsd ∧
      (strTruthy params.logKey = false → st1.log = st.log) ∧
      (strTruthy params.logKey = true →
        st1.log = st.log ++
          [logLineOf cfg params r.metadata.responseTimeMs r.metadata.inputTokens
            r.metadata.outputTokens]) := by
  unfold generate at h
  split at h
  next e st' heq => simp at h
  next m st' heq =>
    have hlog : st'.log = st.log := by
      have h2 := getModel_log cfg env { st with time := st.time + env.resolveDurationMs }
        params.model
      rw [heq] at h2
      exact h2
    split at h
    next herr => simp at h
    next res hsdk =>
      refine ⟨res, hsdk, ?_⟩
      by_cases htr : strTruthy params.logKey = true
      · rw [if_pos htr] at h
        by_cases hthrow : env.logThrows = true
        · rw [if_pos hthrow] at h
          simp at h
        · rw [if_neg hthrow] at h
          have hfst := congrArg Prod.fst h
          have hsnd := congrArg Prod.snd h
          dsimp only at hfst hsnd
          have hresp := Except.ok.inj hfst
          subst hresp
          subst hsnd
          refine ⟨rfl, by simp, rfl, rfl, rfl, rfl, rfl, ?_, ?_⟩
          · intro hf
            simp [htr] at hf
          · intro _
            simp [hlog]
      · rw [if_neg htr] at h
        have hfst := congrArg Prod.fst h
        have hsnd := congrArg Prod.snd h
        dsimp only at hfst hsnd
        have hresp := Except.ok.inj hfst
        subst hresp
        subst hsnd
        refine ⟨rfl, by simp, rfl, rfl, rfl, rfl, rfl, ?_, ?_⟩
        · intro _
          simpa using hlog
        · intro ht
          exact absurd ht htr

/-- `getProvider` preserves the load-once invariant when factories never
fail: a cache hit leaves the state alone, and a first resolution bumps the
counter from 0 to 1 while filling the cache. -/
theorem getProvider_cacheInv (cfg : Config) (env : Env) (st : St) (key k : String)
    (hok : factoriesOk env) (hi : cacheInv key st) :
    cacheInv key (getProvider cfg env st k).2 := by
  unfold getProvider
  split
  · exact hi
  · rename_i hnone
    split
    · dsimp only
      obtain ⟨p, hp⟩ := hok k (st.counts k)
      rw [hp]
      by_cases hk : key = k
      · subst hk
        have h0 := hi.2 hnone
        constructor
        · simp [cacheInv, h0]
        · intro hn2
          simp [alookup] at hn2
      · have hk2 : ¬(k = key) := fun h => hk h.symm
        constructor
        · simpa [hk] using hi.1
        · intro hn2
          have hn3 : alookup key st.cache = none := by
            simpa [alookup, hk2] using hn2
          simpa [hk] using hi.2 hn3
    · exact hi

/-- `getModel` preserves the load-once invariant when factories never
fail. -/
theorem getModel_cacheInv (cfg : Config) (env : Env) (st : St) (mkey key : String)
    (hok : factoriesOk env) (hi : cacheInv key st) :
    cacheInv key (getModel cfg env st mkey).2 := by
  unfold getModel
  split
  · exact hi
  · rename_i mc heq
    have h := getProvider_cacheInv cfg env st key mc.provider hok hi
    rcases hgp : getProvider cfg env st mc.provider with ⟨gres, st1⟩
    rw [hgp] at h
    cases gres <;> simpa using h

/-- `generate` preserves the load-once invariant when factories never
fail: every state change after model resolution touches only the clock
and the log. -/
theorem generate_cacheInv (cfg : Config) (env : Env) (st : St)
    (params : GenerateParams) (key : String)
    (hok : factoriesOk env) (hi : cacheInv key st) :
    cacheInv key (generate cfg env st params).2 := by
  have h := getModel_cacheInv cfg env { st with time := st.time + env.resolveDurationMs }
    params.model key hok hi
  unfold generate
  split
  next e st' heq =>
    rw [heq] at h
    exact h
  next m st' heq =>
    rw [heq] at h
    split
    · exact h
    · by_cases h1 : strTruthy params.logKey = true
      · by_cases h2 : env.logThrows = true
        · simp only [h1, h2, if_true]
          exact h
        · simp only [h1, if_true, h2, if_false, Bool.false_eq_true]
          exact h
      · simp only [h1, Bool.false_eq_true, if_false]
        exact h

/-- Running any sequence of `generate` calls preserves the load-once
invariant when every call's factories succeed. -/
theorem runGenerates_cacheInv (cfg : Config) (key : String)
    (calls : List (Env × GenerateParams)) :
    ∀ st : St, (∀ c ∈ calls, factoriesOk c.1) → cacheInv key st →
      cacheInv key (runGenerates cfg st calls) := by
  induction calls with
  | nil => intro st _ hi; exact hi
  | cons c rest ih =>
    intro st hok hi
    simp only [runGenerates]
    exact ih _ (fun d hd => hok d (List.mem_cons_of_mem _ hd))
      (generate_cacheInv cfg c.1 st c.2 key (hok c (List.mem_cons_self _ _)) hi)

/-- C1: Across any sequence of `generate` calls on one client whose
provider factories never fail, each provider key's factory is invoked at
most once (the ghost invocation counter of the final state never exceeds
1), and resolving a key that is already cached returns the cached
instance with the state — in particular the invocation counter —
unchanged. -/
theorem provider_factory_invoked_at_most_once
    (cfg : Config) (calls : List (Env × GenerateParams)) (key : String)
    (hok : ∀ c ∈ calls, factoriesOk c.1) :
    (runGenerates cfg initSt calls).counts key ≤ 1 ∧
    ∀ env st p, alookup key st.cache = some p →
      getProvider cfg env st key = (Except.ok p, st) := by
  constructor
  · exact (runGenerates_cacheInv cfg key calls initSt hok ⟨Nat.zero_le 1, fun _ => rfl⟩).1
  · intro env st p hp
    unfold getProvider
    rw [hp]

/-- Witness for C1: a concrete client, two `generate` calls through the
same provider key, counter at most 1. -/
theorem provider_factory_invoked_at_most_once_witness :
    factoriesOk envEx ∧
      (runGenerates cfgEx initSt [(envEx, paramsFast), (envEx, paramsSmart)]).counts
        "openai" ≤ 1 :=
  ⟨fun _ _ => ⟨0, rfl⟩,
   (provider_factory_invoked_at_most_once cfgEx [(envEx, paramsFast), (envEx, paramsSmart)]
      "openai"
      (by
        intro c hc
        simp only [List.mem_cons, List.not_mem_nil, or_false] at hc
        rcases hc with h | h <;> subst h <;> exact fun _ _ => ⟨0, rfl⟩)).1⟩

/-- C2: For a model entry with costs configured, `calculateCosts` returns
`inputTokens / 1_000_000 * costs.input`,
`outputTokens / 1_000_000 * costs.output`, and their sum. -/
theorem computeCosts_formula
    (cfg : Config) (mkey : String) (entry : ModelEntry) (c : Costs)
    (inputTokens outputTokens : Nat)
    (hm : alookup mkey cfg.models = some entry)
    (hc : entry.costs = some c) :
    calculateCosts cfg mkey inputTokens outputTokens =
      { inputCostUsd := some ((inputTokens : ℚ) / 1000000 * c.input)
        outputCostUsd := some ((outputTokens : ℚ) / 1000000 * c.output)
        totalCostUsd := some ((inputTokens : ℚ) / 1000000 * c.input +
          (outputTokens : ℚ) / 1000000 * c.output) } := by
  simp [calculateCosts, hm, hc]

/-- Witness for C2: the spec's example, costs `{input: 2.5, output: 10}`
with 1,000,000 input and 500,000 output tokens, yields 2.5, 5.0 and
7.5 USD. -/
theorem computeCosts_formula_witness :
    calculateCosts cfgEx "smart" 1000000 500000 =
      { inputCostUsd := some (5 / 2 : ℚ)
        outputCostUsd := some (5 : ℚ)
        totalCostUsd := some (15 / 2 : ℚ) } := by
  have h := computeCosts_formula cfgEx "smart" entrySmart { input := 5 / 2, output := 10 }
    1000000 500000 rfl rfl
  rw [h]
  simp only [CostFields.mk.injEq, Option.some.injEq]
  norm_num

/-- C3: On a successful `generate` call, each of the three cost fields of
the returned metadata is present iff the resolved model entry has costs
configured. -/
theorem cost_fields_present_iff_costs_configured
    (cfg : Config) (env : Env) (st : St) (params : GenerateParams)
    (r : GenerateResponse) (st1 : St) (entry : ModelEntry)
    (hm : alookup params.model cfg.models = some entry)
    (hgen : generate cfg env st params = (Except.ok r, st1)) :
    (r.metadata.inputCostUsd.isSome ↔ entry.costs.isSome) ∧
    (r.metadata.outputCostUsd.isSome ↔ entry.costs.isSome) ∧
    (r.metadata.totalCostUsd.isSome ↔ entry.costs.isSome) := by
  obtain ⟨res, hsdk, hdata, hrt, hit, hot, hic, hoc, htc, _, _⟩ := generate_ok_inv hgen
  rw [hic, hoc, htc]
  unfold calculateCosts
  rw [hm]
  cases hcosts : entry.costs with
  | none => simp [hcosts]
  | some c => simp [hcosts]

/-- Witness for C3 on the cost-free model: all three fields absent. -/
theorem cost_fields_present_iff_costs_configured_witness :
    (respFast.metadata.inputCostUsd.isSome ↔ entryFast.costs.isSome) ∧
    (respFast.metadata.outputCostUsd.isSome ↔ entryFast.costs.isSome) ∧
    (respFast.metadata.totalCostUsd.isSome ↔ entryFast.costs.isSome) :=
  cost_fields_present_iff_costs_configured cfgEx envEx initSt paramsFastNoLog respFast
    stAfterFast entryFast rfl rfl

/-- C4: `generate` with an alias absent from the model mapping fails with
`UnknownModelError`, and no provider factory is invoked during the
failing call (the ghost invocation counters are unchanged). -/
theorem unknown_model_error_no_factory
    (cfg : Config) (env : Env) (st : St) (params : GenerateParams)
    (hm : alookup params.model cfg.models = none) :
    (generate cfg env st params).1 = Except.error Err.UnknownModelError ∧
    (generate cfg env st params).2.counts = st.counts := by
  constructor <;> simp [generate, getModel, hm]

/-- Witness for C4: `generate({model: "unknown-alias", ...})` on the
concrete client. -/
theorem unknown_model_error_no_factory_witness :
    (generate cfgEx envEx initSt paramsUnknown).1 = Except.error Err.UnknownModelError ∧
    (generate cfgEx envEx initSt paramsUnknown).2.counts = initSt.counts :=
  unknown_model_error_no_factory cfgEx envEx initSt paramsUnknown rfl

/-- C5: A throwing/rejecting factory fails resolution with
`ProviderInitError`; the cache is unchanged (the failure is not stored),
the factory was invoked exactly once more, and a subsequent resolution of
the same key re-invokes the factory from scratch — when the retry
succeeds, it returns the new instance after a second invocation. -/
theorem provider_init_error_not_cached
    (cfg : Config) (env env2 : Env) (st : St) (key : String) (p : Nat)
    (hmiss : alookup key st.cache = none)
    (hkey : key ∈ cfg.providers)
    (hfail : env.factoryResult key (st.counts key) = Except.error ())
    (hretry : env2.factoryResult key (st.counts key + 1) = Except.ok p) :
    (getProvider cfg env st key).1 = Except.error Err.ProviderInitError ∧
    (getProvider cfg env st key).2.cache = st.cache ∧
    (getProvider cfg env st key).2.counts key = st.counts key + 1 ∧
    (getProvider cfg env2 (getProvider cfg env st key).2 key).1 = Except.ok p ∧
    (getProvider cfg env2 (getProvider cfg env st key).2 key).2.counts key
      = st.counts key + 2 := by
  have h1 : getProvider cfg env st key =
      (Except.error Err.ProviderInitError,
        { st with counts := fun k => if k = key then st.counts k + 1 else st.counts k }) := by
    unfold getProvider
    simp [hmiss, hkey, hfail]
  refine ⟨by rw [h1], by rw [h1], by rw [h1]; simp, ?_, ?_⟩ <;>
    · rw [h1]
      unfold getProvider
      simp [hmiss, hkey, hretry]

/-- Witness for C5: a factory that throws on its first invocation and
succeeds on its second, on the concrete client. -/
theorem provider_init_error_not_cached_witness :
    (getProvider cfgEx envFactoryFlaky initSt "openai").1
        = Except.error Err.ProviderInitError ∧
    (getProvider cfgEx envFactoryFlaky initSt "openai").2.cache = initSt.cache ∧
    (getProvider cfgEx envFactoryFlaky initSt "openai").2.counts "openai"
        = initSt.counts "openai" + 1 ∧
    (getProvider cfgEx envFactoryFlaky
        (getProvider cfgEx envFactoryFlaky initSt "openai").2 "openai").1
        = Except.ok 5 ∧
    (getProvider cfgEx envFactoryFlaky
        (getProvider cfgEx envFactoryFlaky initSt "openai").2 "openai").2.counts "openai"
        = initSt.counts "openai" + 2 :=
  provider_init_error_not_cached cfgEx envFactoryFlaky envFactoryFlaky initSt "openai" 5
    rfl (by simp [cfgEx]) rfl rfl

/-- C6: client construction performs no runtime check (it only allocates
the empty cache `initSt`), and the first `generate` call for a model whose
provider key is absent from the provider mapping fails with the
configuration-mismatch error (`ConfigError`, the `TypeError` thrown at the
source's `config.providers[providerKey]!` lookup). -/
theorem missing_provider_key_config_error
    (cfg : Config) (env : Env) (st : St) (params : GenerateParams) (entry : ModelEntry)
    (hm : alookup params.model cfg.models = some entry)
    (hp : entry.provider ∉ cfg.providers)
    (hc : alookup entry.provider st.cache = none) :
    (generate cfg env st params).1 = Except.error Err.ConfigError := by
  simp [generate, getModel, getProvider, hm, hc, hp]

/-- Witness for C6: a configuration whose only model references the
provider key "openai" while the provider mapping is empty. -/
theorem missing_provider_key_config_error_witness :
    (generate cfgBad envEx initSt paramsFastNoLog).1 = Except.error Err.ConfigError :=
  missing_provider_key_config_error cfgBad envEx initSt paramsFastNoLog entryFast
    rfl (List.not_mem_nil _) rfl

/-- C7 counterexample: the source does not guard the log emission with a
try/catch, so on a concrete call with a truthy log key and a throwing
`console.log`, `generate` fails with the logging error instead of
returning the full response. -/
theorem logging_failure_swallowed_counterexample :
    (generate cfgEx envLogFail initSt paramsFast).1 = Except.error Err.LogError := rfl

/-- C7 amended: the log emission step is not guarded. Whenever the model
resolves, the SDK call succeeds, the log key is truthy and the logging
side effect throws, `generate` propagates the logging failure (as
`LogError`) and returns no response. -/
theorem logging_failure_propagates
    (cfg : Config) (env : Env) (st : St) (params : GenerateParams)
    (k : String) (res : SdkResult) (m : Nat × String) (st1 : St)
    (hk : params.logKey = some k) (hne : k ≠ "")
    (hthrows : env.logThrows = true)
    (hsdk : env.sdk = Except.ok res)
    (hmodel : getModel cfg env { st with time := st.time + env.resolveDurationMs }
        params.model = (Except.ok m, st1)) :
    (generate cfg env st params).1 = Except.error Err.LogError := by
  simp [generate, hmodel, hsdk, hthrows, strTruthy, hk, hne]

/-- Witness for C7 amended: the concrete throwing-logger call. -/
theorem logging_failure_propagates_witness :
    (generate cfgEx envLogFail initSt paramsFast).1 = Except.error Err.LogError :=
  logging_failure_propagates cfgEx envLogFail initSt paramsFast "job" resEx
    (0, "gpt-4o-mini") stResolved rfl (by decide) rfl rfl rfl

/-- C8: On a successful `generate` call, `data` equals the SDK's plain
text result when `params.output` is omitted, and the SDK's
schema-validated structured result when `params.output` is supplied. -/
theorem data_matches_output_mode
    (cfg : Config) (env : Env) (st : St) (params : GenerateParams)
    (r : GenerateResponse) (st1 : St) (res : SdkResult)
    (hsdk : env.sdk = Except.ok res)
    (hgen : generate cfg env st params = (Except.ok r, st1)) :
    (params.output = none → r.data = res.text) ∧
    (∀ s, params.output = some s → r.data = res.experimental_output) := by
  obtain ⟨res2, hsdk2, hdata, _⟩ := generate_ok_inv hgen
  rw [hsdk] at hsdk2
  injection hsdk2 with h2
  subst h2
  constructor
  · intro ho
    rw [hdata, ho]
    simp
  · intro s ho
    rw [hdata, ho]
    simp

/-- Witness for C8 on the plain-text call (no output schema). -/
theorem data_matches_output_mode_witness :
    respFast.data = resEx.text :=
  (data_matches_output_mode cfgEx envEx initSt paramsFastNoLog respFast stAfterFast
    resEx rfl rfl).1 rfl

/-- C9: On a successful `generate` call, `responseTimeMs` is non-negative
and equals exactly the wall-clock time elapsed during the underlying SDK
call (`env.sdkDurationMs`); the start timestamp is read only after model
and provider resolution, so the resolution latency `env.resolveDurationMs`
is excluded whatever its value. -/
theorem response_time_excludes_resolution
    (cfg : Config) (env : Env) (st : St) (params : GenerateParams)
    (r : GenerateResponse) (st1 : St)
    (hgen : generate cfg env st params = (Except.ok r, st1)) :
    r.metadata.responseTimeMs = env.sdkDurationMs ∧ 0 ≤ r.metadata.responseTimeMs := by
  obtain ⟨res, _, _, hrt, _⟩ := generate_ok_inv hgen
  exact ⟨hrt, Nat.zero_le _⟩

/-- Witness for C9: the concrete call, where resolution takes 7 ms and
the SDK call 42 ms, reports exactly 42 ms. -/
theorem response_time_excludes_resolution_witness :
    respFast.metadata.responseTimeMs = envEx.sdkDurationMs ∧
      0 ≤ respFast.metadata.responseTimeMs :=
  response_time_excludes_resolution cfgEx envEx initSt paramsFastNoLog respFast
    stAfterFast rfl

/-- C10: Logging is gated on the truthiness of `logKey`, so a call whose
`logKey` is the empty string emits no log line (likewise an absent
`logKey`), and on a successful call a log line is emitted exactly when
`logKey` is a non-empty string. -/
theorem empty_logKey_emits_no_log
    (cfg : Config) (env : Env) (st : St) (params : GenerateParams)
    (r : GenerateResponse) (st1 : St)
    (hgen : generate cfg env st params = (Except.ok r, st1)) :
    (params.logKey = some "" → st1.log = st.log) ∧
    (params.logKey = none → st1.log = st.log) ∧
    (∀ k, params.logKey = some k → k ≠ "" →
      st1.log = st.log ++ [logLineOf cfg params r.metadata.responseTimeMs
        r.metadata.inputTokens r.metadata.outputTokens]) := by
  obtain ⟨res, _, _, _, _, _, _, _, _, hlogf, hlogt⟩ := generate_ok_inv hgen
  refine ⟨?_, ?_, ?_⟩
  · intro h
    exact hlogf (by simp [strTruthy, h])
  · intro h
    exact hlogf (by simp [strTruthy, h])
  · intro k hk hne
    exact hlogt (by simp [strTruthy, hk, hne])

/-- Witness for C10: the concrete call with `logKey = ""` leaves the log
empty. -/
theorem empty_logKey_emits_no_log_witness :
    (generate cfgEx envEx initSt paramsEmptyLogKey).2.log = initSt.log :=
  (empty_logKey_emits_no_log cfgEx envEx initSt paramsEmptyLogKey respFast
    (generate cfgEx envEx initSt paramsEmptyLogKey).2 rfl).1 rfl

end LLMSpec
